import Mathlib

/-!
Verification development for the customer-service agent core pipeline
(intent classification, vector retrieval with backfill and re-ranking,
session store, and the chat orchestration).

The Python source is shallowly embedded: pure logic becomes Lean
functions, the stateful session store becomes explicit state passing,
and every external effect (text-generator calls, nearest-neighbor
searches of a vector index, the structured order lookup, uuid
generation, wall-clock time) becomes an explicit oracle parameter: an
`Except Unit _` value models a call that either returns a value or
raises an exception.  Python floats for timestamps are modelled as
natural-number seconds; confidences as rationals.
-/

namespace CSAgent

/-- Python `sub in s` (substring containment). -/
def strContains (s sub : String) : Bool :=
  s.data.tails.any (fun t => sub.data.isPrefixOf t)

/-- The whitespace characters `str.strip()` removes (ASCII fragment of
Python's whitespace class). -/
def pyIsSpace (c : Char) : Bool :=
  c = ' ' || c = '\t' || c = '\n' || c = '\x0d' || c = '\x0b' || c = '\x0c'

/-- Python `str.strip()`. -/
def pyStrip (s : String) : String :=
  ⟨((s.data.dropWhile pyIsSpace).reverse.dropWhile pyIsSpace).reverse⟩

/-- Python `str.lower()` (ASCII case folding). -/
def pyLower (s : String) : String := ⟨s.data.map Char.toLower⟩

/-- Outcome of one call into an external collaborator: the returned
value, or `.error ()` when the call raised an exception. -/
abbrev GenOutcome := Except Unit String

/-- `IntentType` enum from `app/models/schemas.py`. -/
inductive IntentType where
  | product_inquiry
  | order_status
  | return_refund
  | general_inquiry
  | unknown
deriving DecidableEq, Repr

/-- The `.value` string of each `IntentType` member. -/
def intentValue : IntentType → String
  | .product_inquiry => "product_inquiry"
  | .order_status => "order_status"
  | .return_refund => "return_refund"
  | .general_inquiry => "general_inquiry"
  | .unknown => "unknown"

/-- A langchain `Document`, restricted to the fields the pipeline
reads: `page_content` plus the metadata keys `source`, `type`,
`question`, `category` (each `none` when the key is absent). -/
structure Doc where
  page_content : String
  source : Option String := none
  typeTag : Option String := none
  question : Option String := none
  category : Option String := none
deriving DecidableEq, Repr

/-! ## Order-identifier pattern (`re.search(r'OD\d{10,12}', query)`)

Used by `IntentClassifier._contains_order_id` and by
`ChatService._extract_order_id` (identical regex at both sites). -/

/-- Attempt to match `OD\d{10,12}` anchored at the head of `l`:
`OD` followed by at least 10 digits; the greedy quantifier consumes at
most 12 digits for `group(0)`. -/
def odMatchAt : List Char → Option (List Char)
  | c1 :: c2 :: rest =>
      if c1 = 'O' ∧ c2 = 'D' ∧ 10 ≤ (rest.takeWhile Char.isDigit).length then
        some (c1 :: c2 :: (rest.takeWhile Char.isDigit).take 12)
      else none
  | _ => none

/-- `re.search`: leftmost match of `OD\d{10,12}` in the text. -/
def reSearchOrderId (l : List Char) : Option (List Char) :=
  (l.tails.filterMap odMatchAt).head?

/-- `ChatService._extract_order_id` (chat_service.py:108-123). -/
def extractOrderId (query : String) : Option String :=
  (reSearchOrderId query.data).map (fun cs => ⟨cs⟩)

/-! ## Intent classifier (`app/core/intent_classifier.py`) -/

/-- The fixed order-keyword list of `_contains_order_id`. -/
def orderKeywords : List String :=
  ["订单", "包裹", "发货", "物流", "快递", "配送", "送达", "追踪", "查询",
   "订单号", "物流信息"]

/-- `IntentClassifier._contains_order_id` (intent_classifier.py:51-72). -/
def containsOrderId (query : String) : Bool :=
  let has_order_id := (reSearchOrderId query.data).isSome
  let has_order_keywords := orderKeywords.any (fun kw => strContains query kw)
  has_order_id && (has_order_keywords || strContains query "OD")

/-- Oracle for the two generator calls the generative classification
path can make: `llm.ainvoke` and the `direct_query` fallback
(that fallback itself catches exceptions and returns a fixed apology,
modelled in `classifyIntentText`). -/
structure ClassifierGen where
  ainvokeRes : GenOutcome
  directRes : GenOutcome
deriving Repr

/-- The normalized `intent_text` that `_classify_intent` obtains:
`llm.ainvoke`'s content on success, else `direct_query`'s result
(which on its own failure is the fixed apology string), then
`.strip().lower()`. -/
def classifyIntentText (g : ClassifierGen) : String :=
  let raw :=
    match g.ainvokeRes with
    | .ok s => s
    | .error _ =>
        match g.directRes with
        | .ok s => s
        | .error _ => "抱歉，我无法处理您的请求，请稍后再试。"
  pyLower (pyStrip raw)

/-- `IntentClassifier._classify_intent` (intent_classifier.py:74-142):
substring mapping of the normalized generator output to an intent and
confidence. -/
def classifyIntentGen (g : ClassifierGen) (_query : String) : IntentType × ℚ :=
  let t := classifyIntentText g
  if strContains t "product" || strContains t "product_inquiry" then
    (.product_inquiry, 9/10)
  else if strContains t "order" || strContains t "order_status" then
    (.order_status, 9/10)
  else if strContains t "return" || strContains t "refund" || strContains t "return_refund" then
    (.return_refund, 9/10)
  else if strContains t "general" || strContains t "general_inquiry" then
    (.general_inquiry, 9/10)
  else
    (.unknown, 1/2)

/-- `IntentClassificationResponse` from `app/models/schemas.py`. -/
structure IntentClassificationResponse where
  intent : IntentType
  confidence : ℚ
  message : Option String := none
deriving DecidableEq, Repr

/-- `IntentClassifier.classify` (intent_classifier.py:19-49).  The
second component records whether the generative classification path was
invoked (the deterministic override returns before any generator
call). -/
def classify (g : ClassifierGen) (query : String) :
    IntentClassificationResponse × Bool :=
  if containsOrderId query then
    (⟨.order_status, 95/100, none⟩, false)
  else
    let (i, c) := classifyIntentGen g query
    (⟨i, c, none⟩, true)

/-! ## Vector index partition (`app/core/vector_store.py`) -/

/-- The four partition singletons created at the bottom of
`vector_store.py`. -/
inductive StoreId where
  | product
  | order
  | return_refund
  | general
deriving DecidableEq, Repr

/-- The `RAGRetriever.vector_stores` routing table: `UNKNOWN` shares
the general partition. -/
def storeOf : IntentType → StoreId
  | .product_inquiry => .product
  | .order_status => .order
  | .return_refund => .return_refund
  | .general_inquiry => .general
  | .unknown => .general

/-- The underlying Chroma nearest-neighbor index, abstracted: given
the (possibly expanded) query text and `k`, it returns at most `k`
ranked documents or raises. -/
abbrev ChromaOracle := String → Nat → Except Unit (List Doc)

/-- `VectorStoreManager._create_enhanced_query`
(vector_store.py:208-229). -/
def createEnhancedQuery (query : String) : String :=
  if query.length < 10 then
    if strContains query "积分" then query ++ " 购物积分 会员积分 积分使用 积分规则"
    else if strContains query "订单" then query ++ " 订单状态 物流 配送 发货"
    else if strContains query "退款" || strContains query "退货" then
      query ++ " 退货政策 退款流程 售后"
    else query
  else query

/-- `VectorStoreManager.similarity_search` (vector_store.py:187-206):
expands the query, searches, and on any exception returns `[]`.  Note
the return value is a bare document list — the method computes no
source list. -/
def similaritySearch (idx : ChromaOracle) (query : String) (k : Nat) : List Doc :=
  match idx (createEnhancedQuery query) k with
  | .ok docs => docs
  | .error _ => []

/-- Python iterable unpacking `a, b = l` of a list: succeeds only when
the list has exactly two elements, otherwise raises `ValueError`.
Every caller of `similarity_search` (rag_retriever.py:69,119,129,348;
knowledge_service.py:252; test_similarity_search.py:26) unpacks its
result this way. -/
def unpack2 {α : Type} : List α → Except Unit (α × α)
  | [a, b] => .ok (a, b)
  | _ => .error ()

/-! ## Retriever (`app/core/rag_retriever.py`)

The retriever awaits `store.similarity_search(query, k)` and unpacks
the result into `docs, sources`; the whole call site is modelled by a
`SearchOracle` which either yields the pair or raises. -/

/-- Outcome of `docs, sources = await store.similarity_search(q, k)`
for a given partition (exceptions included). -/
abbrev SearchOracle := StoreId → String → Nat → Except Unit (List Doc × List String)

/-- The documents a partition search contributes when its exception is
caught locally and treated as zero results. -/
def storeSearchDocs (so : SearchOracle) (sid : StoreId) (q : String) (k : Nat) : List Doc :=
  match so sid q k with
  | .ok (d, _) => d
  | .error _ => []

/-- The keyword → related-intent table of
`RAGRetriever._get_related_intents` (rag_retriever.py:148-157), in
dict insertion order. -/
def relatedKeywordMap : List (String × List IntentType) :=
  [("积分", [.general_inquiry, .product_inquiry]),
   ("订单", [.order_status]),
   ("发货", [.order_status]),
   ("物流", [.order_status]),
   ("退货", [.return_refund]),
   ("退款", [.return_refund]),
   ("商品", [.product_inquiry]),
   ("产品", [.product_inquiry])]

/-- `RAGRetriever._get_related_intents` (rag_retriever.py:136-172). -/
def getRelatedIntents (primary : IntentType) (query : String) : List IntentType :=
  let related := relatedKeywordMap.foldl
    (fun acc kwints =>
      if strContains query kwints.1 then
        kwints.2.foldl
          (fun acc2 i => if i ≠ primary ∧ i ∉ acc2 then acc2 ++ [i] else acc2) acc
      else acc) []
  if IntentType.general_inquiry ∉ related ∧ primary ≠ .general_inquiry then
    related ++ [.general_inquiry]
  else related

/-- `RAGRetriever._retrieve_from_multiple_stores`
(rag_retriever.py:102-134): general partition first at `k//2`, then
each related partition at `k//2`; each search's exception is caught
and contributes nothing. -/
def retrieveFromMultipleStores (so : SearchOracle) (query : String)
    (primary : IntentType) (k : Nat) : List Doc :=
  let docs0 := if primary ≠ IntentType.general_inquiry then
      storeSearchDocs so .general query (k / 2)
    else []
  (getRelatedIntents primary query).foldl
    (fun acc i =>
      if i ≠ primary then acc ++ storeSearchDocs so (storeOf i) query (k / 2) else acc)
    docs0

/-- `RAGRetriever._merge_and_deduplicate_docs` (rag_retriever.py:174-193):
append secondary docs whose `page_content` was not yet seen. -/
def mergeAndDeduplicateDocs (primary secondary : List Doc) : List Doc :=
  (secondary.foldl
    (fun acc doc =>
      if doc.page_content ∈ acc.2 then acc
      else (acc.1 ++ [doc], doc.page_content :: acc.2))
    (primary, primary.map (·.page_content))).1

/-! ### Re-ranking (`RAGRetriever._rerank_documents`, rag_retriever.py:195-255) -/

/-- `re.findall(r'\d+', s)`: the maximal digit runs of `s`, in order. -/
def digitRuns : List Char → List (List Char)
  | [] => []
  | c :: rest =>
      if c.isDigit then
        (c :: rest.takeWhile Char.isDigit) :: digitRuns (rest.dropWhile Char.isDigit)
      else digitRuns rest
termination_by l => l.length
decreasing_by
  · simp only [List.length_cons]
    exact Nat.lt_succ_of_le (List.dropWhile_sublist _).length_le
  · simp

/-- `int` of a digit run. -/
def digitsVal (run : List Char) : Nat :=
  run.foldl (fun a c => a * 10 + (c.toNat - '0'.toNat)) 0

/-- The index-accumulation loop (rag_retriever.py:233-239): each
parsed integer is converted to a 0-based index and kept only if it is
in range and not yet present. -/
def rerankIndices (nums : List Nat) (n : Nat) : List Nat :=
  nums.foldl
    (fun acc m => if 1 ≤ m ∧ m - 1 < n ∧ m - 1 ∉ acc then acc ++ [m - 1] else acc)
    []

/-- Default document (never observed: all indexing stays in range). -/
def dfltDoc : Doc := ⟨"", none, none, none, none⟩

/-- `RAGRetriever._rerank_documents` (rag_retriever.py:195-255), with
the generator call abstracted to its outcome (`.error` also covers the
generator raising).  Omitted indices are appended in original order
(lines 245-247); the final comprehension re-filters `idx < len(docs)`
(line 250). -/
def rerankDocs (gen : GenOutcome) (docs : List Doc) : List Doc :=
  if docs.isEmpty then []
  else
    match gen with
    | .error _ => docs
    | .ok result =>
        let idxs := rerankIndices ((digitRuns result.data).map digitsVal) docs.length
        let full := idxs ++ (List.range docs.length).filter (fun i => i ∉ idxs)
        (full.filter (fun i => i < docs.length)).map (fun i => docs.getD i dfltDoc)

/-! ### Document post-processing (`RAGRetriever._process_documents`) -/

/-- A processed document as emitted by `_process_documents`
(rag_retriever.py:257-325): an FAQ record, a successfully parsed JSON
object (represented by its source text), or a raw-content record. -/
inductive PDoc where
  | faq (question content : String) (category : Option String)
  | jsonObj (content : String)
  | raw (content : String)
deriving DecidableEq, Repr

/-- `metadata.get("source", "未知来源")`. -/
def sourceOf (d : Doc) : String := d.source.getD "未知来源"

/-- `content.startswith('{') and content.endswith('}')`. -/
def bracedJson (s : String) : Bool :=
  s.data.head? = some '{' && s.data.getLast? = some '}'

/-- One document's branch of `_process_documents`; `jsonOk` abstracts
whether `json.loads(content)` succeeds. -/
def processOne (jsonOk : String → Bool) (d : Doc) : PDoc :=
  if d.typeTag = some "faq" then
    .faq (d.question.getD "") d.page_content d.category
  else if bracedJson d.page_content then
    if jsonOk d.page_content then .jsonObj d.page_content
    else .raw d.page_content
  else .raw d.page_content

/-- `if source not in sources: sources.append(source)`. -/
def appendNew (srcs : List String) (s : String) : List String :=
  if s ∈ srcs then srcs else srcs ++ [s]

/-- First-appearance deduplication of a list (the accumulation every
branch of `_process_documents` performs on the source field). -/
def dedupFirst (l : List String) : List String := l.foldl appendNew []

/-- `RAGRetriever._process_documents` (rag_retriever.py:257-325). -/
def processDocuments (jsonOk : String → Bool) (docs : List Doc) :
    List PDoc × List String :=
  docs.foldl
    (fun acc d => (acc.1 ++ [processOne jsonOk d], appendNew acc.2 (sourceOf d)))
    ([], [])

/-! ### `RAGRetriever.retrieve` (rag_retriever.py:49-100)

The outer `try` wraps the primary search, the backfill, the re-rank
and the post-processing; of these only the primary search's unpacking
can raise (backfill and re-rank catch their own exceptions), so an
exception there yields the empty `RAGResult`. -/

/-- `RAGResult` from `app/models/schemas.py`. -/
structure RAGResult where
  documents : List PDoc
  sources : List String
  query : String
deriving DecidableEq, Repr

/-- The backfill step of `retrieve` (rag_retriever.py:71-78): if the
primary partition returned fewer than `top_k * 0.6` documents (the
threshold taken at its exact rational value, `len * 10 < top_k * 6`)
and the backup retrieval is non-empty, merge-deduplicate and truncate
to `top_k`. -/
def backfilled (so : SearchOracle) (query : String) (intent : IntentType)
    (top_k : Nat) (docs0 : List Doc) : List Doc :=
  if docs0.length * 10 < top_k * 6 then
    if (retrieveFromMultipleStores so query intent top_k).isEmpty then docs0
    else (mergeAndDeduplicateDocs docs0
        (retrieveFromMultipleStores so query intent top_k)).take top_k
  else docs0

/-- The conditional re-rank step (rag_retriever.py:80-82 and 360-362):
re-rank only when at least 3 documents are present. -/
def maybeRerank (rg : GenOutcome) (docs : List Doc) : List Doc :=
  if 3 ≤ docs.length then rerankDocs rg docs else docs

/-- The document list `retrieve` holds right before
`_process_documents` (empty when the primary search raised). -/
def retrieveDocs (so : SearchOracle) (rg : GenOutcome) (query : String)
    (intent : IntentType) (top_k : Nat) : List Doc :=
  match so (storeOf intent) query top_k with
  | .error _ => []
  | .ok pair => maybeRerank rg (backfilled so query intent top_k pair.1)

/-- `RAGRetriever.retrieve` (rag_retriever.py:49-100). -/
def retrieve (so : SearchOracle) (rg : GenOutcome) (jsonOk : String → Bool)
    (query : String) (intent : IntentType) (top_k : Nat := 5) : RAGResult :=
  let pd := processDocuments jsonOk (retrieveDocs so rg query intent top_k)
  ⟨pd.1, pd.2, query⟩

/-- The per-partition loop body of `multi_vector_store_search`
(rag_retriever.py:342-358): on success, concatenate the documents and
accumulate the newly seen sources; an exception is caught and the
partition skipped. -/
def multiStep (so : SearchOracle) (query : String) (top_k : Nat)
    (acc : List Doc × List String) (i : IntentType) : List Doc × List String :=
  match so (storeOf i) query top_k with
  | .error _ => acc
  | .ok pair => (acc.1 ++ pair.1, pair.2.foldl appendNew acc.2)

/-- The accumulated `(all_docs, all_sources)` of
`multi_vector_store_search` after its partition loop
(rag_retriever.py:338-358): every non-unknown partition in dict order. -/
def multiAll (so : SearchOracle) (query : String) (top_k : Nat) :
    List Doc × List String :=
  [IntentType.product_inquiry, .order_status, .return_refund, .general_inquiry].foldl
    (multiStep so query top_k) ([], [])

/-- `RAGRetriever.multi_vector_store_search` (rag_retriever.py:327-371):
searches every non-unknown partition at `top_k` via `multiStep`,
conditionally re-ranks, and discards the final `_process_documents`
sources (line 365) in favour of the per-partition accumulation. -/
def multiVectorStoreSearch (so : SearchOracle) (rg : GenOutcome)
    (jsonOk : String → Bool) (query : String) (top_k : Nat := 3) : RAGResult :=
  ⟨(processDocuments jsonOk (maybeRerank rg (multiAll so query top_k).1)).1,
   (multiAll so query top_k).2, query⟩

/-! ## Session store (`app/core/session_manager.py`)

`self.sessions` is a Python dict keyed by session id; it is modelled
as an insertion-ordered association list (new keys appended at the
end, updates in place, deletions removed).  `time.time()` is an
explicit `now : Nat` argument and `str(uuid.uuid4())` an explicit
`freshId : String` argument at each call that may generate one. -/

/-- A message of a session history (`Message` in schemas.py). -/
structure Message where
  role : String
  content : String
deriving DecidableEq, Repr

/-- One session dict as created by `get_session`
(session_manager.py:42-47): keys `id`, `created_at`, `last_active`,
`history`, plus `metadata` once `set_session_metadata` ran.  The dict
never acquires any other key. -/
structure SessionData where
  created_at : Nat
  last_active : Nat
  history : List Message
  metadata : List (String × String)
deriving DecidableEq, Repr

/-- The sessions dict: insertion-ordered key/value pairs. -/
abbrev Sessions := List (String × SessionData)

/-- `SessionManager` state: the sessions dict and the configured TTL. -/
structure SMState where
  sessions : Sessions
  ttl : Nat
deriving DecidableEq, Repr

/-- Dict lookup `self.sessions[k]` / `k in self.sessions`. -/
def lookupSess (m : Sessions) (k : String) : Option SessionData :=
  (m.find? (fun p => p.1 = k)).map (·.2)

/-- In-place update of the value stored under key `k`. -/
def updateSess (m : Sessions) (k : String) (f : SessionData → SessionData) : Sessions :=
  m.map (fun p => if p.1 = k then (p.1, f p.2) else p)

/-- A session id value as passed from Python: a string, or any
non-string value. -/
inductive PyVal where
  | str (s : String)
  | nonstr
deriving DecidableEq, Repr

/-- The invalid-id test of `get_session` (session_manager.py:35):
`not session_id or session_id == "undefined" or not isinstance(session_id, str)`. -/
def invalidSessionId : PyVal → Bool
  | .str s => s = "" || s = "undefined"
  | .nonstr => true

/-- The fresh session dict of session_manager.py:42-47. -/
def newSession (now : Nat) : SessionData := ⟨now, now, [], []⟩

/-- `SessionManager._cleanup_expired_sessions`
(session_manager.py:178-189): delete every session with
`current_time - last_active > ttl` (Python float subtraction of a
future `last_active` is negative, matching truncated `Nat`
subtraction). -/
def cleanupExpired (ttl now : Nat) (m : Sessions) : Sessions :=
  m.filter (fun p => now - p.2.last_active ≤ ttl)

/-- The id `get_session` actually uses (session_manager.py:34-37): an
invalid incoming id is replaced by a fresh uuid. -/
def resolveId (sid : PyVal) (freshId : String) : String :=
  if invalidSessionId sid then freshId
  else match sid with
    | .str s => s
    | .nonstr => freshId

/-- Lines 39-50 of session_manager.py: create the session when the
resolved id is unknown, otherwise touch its `last_active`. -/
def touchedSessions (m : Sessions) (id : String) (now : Nat) : Sessions :=
  match lookupSess m id with
  | none => m ++ [(id, newSession now)]
  | some _ => updateSess m id (fun d => { d with last_active := now })

/-- `SessionManager.get_session` (session_manager.py:24-55): repair an
invalid id with `freshId`, create or touch the session, then sweep
expired sessions; returns the resolved id together with the new state
(the Python function returns `self.sessions[resolved id]`, which the
sweep cannot have removed since its `last_active` was just set to
`now`). -/
def getSession (st : SMState) (sid : PyVal) (now : Nat) (freshId : String) :
    String × SMState :=
  ⟨resolveId sid freshId,
   { st with
     sessions := cleanupExpired st.ttl now
       (touchedSessions st.sessions (resolveId sid freshId) now) }⟩

/-- `SessionManager.add_message` (session_manager.py:57-68): fetch the
session via `get_session`, append the message to its history and
refresh `last_active` (both timestamps taken at the same modelled
instant `now`). -/
def addMessage (st : SMState) (sid : PyVal) (role content : String)
    (now : Nat) (freshId : String) : SMState :=
  { (getSession st sid now freshId).2 with
    sessions :=
      updateSess (getSession st sid now freshId).2.sessions
        (getSession st sid now freshId).1
        (fun d => { d with history := d.history ++ [⟨role, content⟩], last_active := now }) }

/-- `SessionManager.get_chat_history` (session_manager.py:70-90). -/
def getChatHistory (st : SMState) (sid : PyVal) (now : Nat) (freshId : String) :
    List Message × SMState :=
  ((((lookupSess (getSession st sid now freshId).2.sessions
      (getSession st sid now freshId).1).map (·.history)).getD []),
   (getSession st sid now freshId).2)

/-- `dict[key] = value` on the metadata dict. -/
def setMeta (m : List (String × String)) (k v : String) : List (String × String) :=
  if m.any (fun p => p.1 = k) then
    m.map (fun p => if p.1 = k then (p.1, v) else p)
  else m ++ [(k, v)]

/-- `SessionManager.set_session_metadata` (session_manager.py:191-205). -/
def setSessionMetadata (st : SMState) (sid : PyVal) (key value : String)
    (now : Nat) (freshId : String) : SMState :=
  { (getSession st sid now freshId).2 with
    sessions :=
      updateSess (getSession st sid now freshId).2.sessions
        (getSession st sid now freshId).1
        (fun d => { d with metadata := setMeta d.metadata key value }) }

/-- The record returned by `SessionManager.get_session_context`
(session_manager.py:141-176) on its success path. -/
structure SessionContext where
  sessionExists : Bool
  session_id : PyVal
  created_at : Nat
  last_active : Nat
  message_count : Nat
  expires_at : Nat
deriving DecidableEq, Repr

/-- `SessionManager.get_session_context` (session_manager.py:141-176).
`get_session` always returns a (possibly fresh) session dict, so the
`exists: False` branch is unreachable and nothing in the body raises.
`message_count = len(session.get("messages", []))` (line 160): the
session dict has keys `id`/`created_at`/`last_active`/`history` (and
possibly `metadata`) but never a `"messages"` key, so the `.get`
default `[]` always applies and the count is `0`.  `session_id` echoes
the caller's argument, not the repaired id. -/
def getSessionContext (st : SMState) (sid : PyVal) (now : Nat) (freshId : String) :
    SessionContext × SMState :=
  (⟨true, sid,
    ((lookupSess (getSession st sid now freshId).2.sessions
        (getSession st sid now freshId).1).getD (newSession now)).created_at,
    ((lookupSess (getSession st sid now freshId).2.sessions
        (getSession st sid now freshId).1).getD (newSession now)).last_active,
    0,
    ((lookupSess (getSession st sid now freshId).2.sessions
        (getSession st sid now freshId).1).getD (newSession now)).last_active + st.ttl⟩,
   (getSession st sid now freshId).2)

/-! ## Chat service (`app/services/chat_service.py`) and route
(`app/api/routes.py`)

`process_chat` is embedded with an explicit environment of external
collaborators and an explicit uuid supply `freshIds : Nat → String`
(`freshIds n` is the n-th `str(uuid.uuid4())` the call would draw).
An event trace records every external invocation the orchestration
layer performs: generator attempts and the retrieval call. -/

/-- `ChatRequest` from schemas.py (the unused `system_prompt` field is
omitted). -/
structure ChatRequest where
  query : String
  session_id : PyVal
deriving Repr

/-- `ChatResponse` from schemas.py. -/
structure ChatResponse where
  response : String
  intent : Option IntentType := none
  sources : Option (List String) := none
deriving DecidableEq, Repr

/-- Observable external invocations made by `process_chat` itself. -/
inductive Ev where
  | classifyGenCall
  | orderGenCall
  | retrieveCall
  | mainGenCall
deriving DecidableEq, Repr

/-- The external collaborators `process_chat` consults.  Generator
outcomes are per-call-site oracles; `orderLookup` is the structured
order capability (`knowledge_service.find_order_by_id` plus the
`order_samples.json` file fallback of `_find_order_by_id`), whose
record content is opaque to the core and modelled as its serialized
text. -/
structure Env where
  classifierGen : ClassifierGen
  orderLookup : String → Option String
  orderGen : GenOutcome
  mainGen : GenOutcome
  mainDirect : GenOutcome
  search : SearchOracle
  rerankGen : GenOutcome
  jsonOk : String → Bool

/-- `ChatService._generate_order_response` (chat_service.py:161-209):
one generator invocation over the order record; on failure, the fixed
fallback naming the order id. -/
def generateOrderResponse (env : Env) (order_id : String) : String :=
  match env.orderGen with
  | .ok s => s
  | .error _ =>
      "根据订单号 " ++ order_id ++ " 查询到相关信息，但在处理过程中遇到问题。请稍后再试。"

/-- `ChatService._generate_response` (chat_service.py:211-319).  Both
the no-context branch (no retrieved documents) and the RAG branch
attempt `llm.ainvoke` and fall back to `llm_manager.direct_query`,
which itself catches its exception and returns a fixed apology; the
branches differ only in the prompt they send, which the oracles
absorb, so the outcome structure is shared.  The outer catch-all
apology (line 319) is unreachable. -/
def generateResponse (env : Env) : String × List Ev :=
  match env.mainGen with
  | .ok s => (s, [.mainGenCall])
  | .error _ =>
      match env.mainDirect with
      | .ok s => (s, [.mainGenCall, .mainGenCall])
      | .error _ => ("抱歉，我无法处理您的请求，请稍后再试。", [.mainGenCall, .mainGenCall])

/-- Result of one `process_chat` call: the HTTP-level response, the
session-store state after the call, and the event trace. -/
structure PCResult where
  response : ChatResponse
  state : SMState
  events : List Ev
deriving Repr

/-- The session-store state after the first three store operations of
`process_chat` (chat_service.py:44-54): append the user message
(drawing `freshIds 0` if the incoming id is invalid), read the history
(`freshIds 1`), record the classified intent in session metadata
(`freshIds 2`). -/
def pcState3 (env : Env) (freshIds : Nat → String) (st : SMState)
    (q : String) (sid : PyVal) (now : Nat) : SMState :=
  setSessionMetadata
    (getChatHistory (addMessage st sid "user" q now (freshIds 0)) sid now (freshIds 1)).2
    sid "last_intent" (intentValue (classify env.classifierGen q).1.intent)
    now (freshIds 2)

/-- The structured-branch guard of `process_chat`
(chat_service.py:57-62): the extracted order id, provided the intent
is `order_status` and the order lookup resolves it. -/
def pcStructured (env : Env) (q : String) : Option String :=
  if (classify env.classifierGen q).1.intent = .order_status then
    match extractOrderId q with
    | some oid => (env.orderLookup oid).map (fun _ => oid)
    | none => none
  else none

/-- `ChatService.process_chat` (chat_service.py:29-106).  Control
flow: append the user message, read the history, classify, record the
intent in session metadata (`pcState3`), extract an order id; if the
intent is `order_status` and the extracted order id resolves via the
lookup (`pcStructured`), the structured order branch answers with
fixed sources `["order_samples.json"]`; otherwise retrieve and
generate.  None of the embedded operations raises, so the outer
exception handler (lines 96-106) is unreachable. -/
def processChat (env : Env) (freshIds : Nat → String) (st : SMState)
    (req : ChatRequest) (now : Nat) : PCResult :=
  match pcStructured env req.query with
  | some oid =>
      ⟨⟨generateOrderResponse env oid,
        some (classify env.classifierGen req.query).1.intent,
        some ["order_samples.json"]⟩,
       addMessage (pcState3 env freshIds st req.query req.session_id now)
         req.session_id "assistant" (generateOrderResponse env oid) now (freshIds 3),
       (if (classify env.classifierGen req.query).2 then [.classifyGenCall] else []) ++
         [.orderGenCall]⟩
  | none =>
      ⟨⟨(generateResponse env).1,
        some (classify env.classifierGen req.query).1.intent,
        if (retrieve env.search env.rerankGen env.jsonOk req.query
            (classify env.classifierGen req.query).1.intent 5).documents.isEmpty then none
        else some (retrieve env.search env.rerankGen env.jsonOk req.query
            (classify env.classifierGen req.query).1.intent 5).sources⟩,
       addMessage (pcState3 env freshIds st req.query req.session_id now)
         req.session_id "assistant" (generateResponse env).1 now (freshIds 3),
       (if (classify env.classifierGen req.query).2 then [.classifyGenCall] else []) ++
         [.retrieveCall] ++ (generateResponse env).2⟩

/-- Result of the `/chat` route: either the chat response (with the
resulting session state and event trace) or an HTTP validation error
raised before the pipeline runs. -/
inductive RouteResult where
  | ok (resp : ChatResponse) (st : SMState) (events : List Ev)
  | validationError (code : Nat) (detail : String)
deriving Repr

/-- The `/chat` endpoint (routes.py:20-43).  Pydantic guarantees
`query` and `session_id` are strings before the handler runs.  The
guard `not request.query or not request.query.strip()` rejects with
HTTP 422 before `process_chat` is invoked; an empty `session_id` is
replaced with a fresh uuid (`routeFresh`). -/
def chatRoute (env : Env) (freshIds : Nat → String) (st : SMState)
    (query session_id : String) (now : Nat) (routeFresh : String) : RouteResult :=
  if query = "" || pyStrip query = "" then
    .validationError 422 "查询内容不能为空"
  else
    let sid := if session_id = "" then routeFresh else session_id
    let r := processChat env freshIds st ⟨query, .str sid⟩ now
    .ok r.response r.state r.events

/-! # Theorems -/

/-- C4: every query matching the order-identifier pattern (the `OD` +
10-12-digit regex) that also contains an order keyword is classified
as `order_status` with confidence 0.95, for every behaviour of the
generator (both the primary call and the fallback), and the generative
classification path is not invoked. -/
theorem C4_order_override (g : ClassifierGen) (q : String)
    (hpat : (reSearchOrderId q.data).isSome = true)
    (hkw : orderKeywords.any (fun kw => strContains q kw) = true) :
    classify g q = (⟨.order_status, 95/100, none⟩, false) := by
  have hc : containsOrderId q = true := by
    simp only [containsOrderId, hpat, hkw, Bool.true_and, Bool.true_or]
  simp [classify, hc]

/-- Witness for `C4_order_override` at the spec's scenario query, with
a generator that always fails. -/
theorem C4_order_override_witness :
    classify ⟨.error (), .error ()⟩ "我的订单号是OD2023110512567，能查一下物流状态吗？" =
      (⟨.order_status, 95/100, none⟩, false) :=
  C4_order_override ⟨.error (), .error ()⟩
    "我的订单号是OD2023110512567，能查一下物流状态吗？" (by decide) (by decide)

/-- A concrete three-chunk partition index, matching the shape of
`test_similarity_search.py` (a partition holding at least three
chunks, queried with k = 3). -/
def c2Index : ChromaOracle := fun _ k =>
  .ok ([⟨"文档甲", some "a.json", none, none, none⟩,
        ⟨"文档乙", some "b.json", none, none, none⟩,
        ⟨"文档丙", some "a.json", none, none, none⟩].take k)

/-- C2: the claim says a partition's search returns a pair
`(documents, sources)` with `sources` the deduplicated source list of
the returned documents.  The code's `similarity_search`
(vector_store.py:187-206) returns only the bare ranked document list
and computes no source list at all; pair-unpacking its result, as
every caller does (rag_retriever.py:69,119,129,348,
knowledge_service.py:252) and as the repo's own
`test_similarity_search.py:26` does, raises `ValueError` whenever the
list does not happen to have exactly two elements.  Evaluated here at
the failing input (query `"手机配置"`, k = 3). -/
theorem C2_search_returns_bare_list :
    similaritySearch c2Index "手机配置" 3 =
      [⟨"文档甲", some "a.json", none, none, none⟩,
       ⟨"文档乙", some "b.json", none, none, none⟩,
       ⟨"文档丙", some "a.json", none, none, none⟩] ∧
    unpack2 (similaritySearch c2Index "手机配置" 3) = .error () := by
  exact ⟨rfl, rfl⟩

/-- Session store with one session `"s1"` holding exactly one stored
message, TTL 24h. -/
def c9State : SMState := ⟨[("s1", ⟨5, 8, [⟨"user", "你好"⟩], []⟩)], 86400⟩

/-- C9: the context accessor reports creation/last-active timestamps
and `expires_at = last_active + ttl`, but its message count reads the
nonexistent `"messages"` key of the session dict
(session_manager.py:160) instead of `session["history"].messages`, so
it reports 0 even though the session's history holds one message
(which the same call leaves intact in the store). -/
theorem C9_message_count_always_zero :
    (getSessionContext c9State (.str "s1") 100 "fresh").1 =
      ⟨true, .str "s1", 5, 100, 0, 100 + 86400⟩ ∧
    lookupSess ((getSessionContext c9State (.str "s1") 100 "fresh").2).sessions "s1" =
      some ⟨5, 100, [⟨"user", "你好"⟩], []⟩ := by
  exact ⟨rfl, rfl⟩

/-! ## Re-ranking is a permutation (C5) -/

theorem map_getD_range {α : Type} (l : List α) (d : α) :
    (List.range l.length).map (fun i => l.getD i d) = l := by
  induction l with
  | nil => simp
  | cons a t ih =>
      rw [List.length_cons, List.range_succ_eq_map, List.map_cons, List.map_map]
      refine congrArg (a :: ·) ?_
      have hf : ((fun i => (a :: t).getD i d) ∘ Nat.succ) = fun i => t.getD i d := by
        funext i
        simp [List.getD]
      rw [hf]
      exact ih

theorem rerankIndices_invariant (n : Nat) (nums : List Nat) :
    ∀ acc : List Nat, acc.Nodup → (∀ i ∈ acc, i < n) →
      (nums.foldl
        (fun acc m => if 1 ≤ m ∧ m - 1 < n ∧ m - 1 ∉ acc then acc ++ [m - 1] else acc)
        acc).Nodup ∧
      ∀ i ∈ nums.foldl
        (fun acc m => if 1 ≤ m ∧ m - 1 < n ∧ m - 1 ∉ acc then acc ++ [m - 1] else acc)
        acc, i < n := by
  induction nums with
  | nil => exact fun acc h1 h2 => ⟨h1, h2⟩
  | cons m rest ih =>
      intro acc h1 h2
      rw [List.foldl_cons]
      by_cases hc : 1 ≤ m ∧ m - 1 < n ∧ m - 1 ∉ acc
      · rw [if_pos hc]
        refine ih _ ?_ ?_
        · refine List.Nodup.append h1 (List.nodup_singleton _) ?_
          intro a ha hb
          rw [List.mem_singleton] at hb
          exact hc.2.2 (hb ▸ ha)
        · intro i hi
          rcases List.mem_append.mp hi with h | h
          · exact h2 i h
          · rw [List.mem_singleton] at h
            exact h ▸ hc.2.1
      · rw [if_neg hc]
        exact ih acc h1 h2

theorem rerankIndices_nodup (nums : List Nat) (n : Nat) :
    (rerankIndices nums n).Nodup :=
  (rerankIndices_invariant n nums [] List.nodup_nil (by simp)).1

theorem rerankIndices_lt (nums : List Nat) (n : Nat) :
    ∀ i ∈ rerankIndices nums n, i < n :=
  (rerankIndices_invariant n nums [] List.nodup_nil (by simp)).2

/-- The re-ranked document list is always a permutation of the input. -/
theorem rerankDocs_perm (gen : GenOutcome) (docs : List Doc) :
    (rerankDocs gen docs).Perm docs := by
  unfold rerankDocs
  by_cases hemp : docs.isEmpty
  · rw [if_pos hemp, List.isEmpty_iff.mp hemp]
  · rw [if_neg hemp]
    cases gen with
    | error e => exact List.Perm.refl docs
    | ok result =>
        set n := docs.length with hn
        set idxs := rerankIndices ((digitRuns result.data).map digitsVal) n with hidxs
        have hnd : idxs.Nodup := rerankIndices_nodup _ _
        have hlt : ∀ i ∈ idxs, i < n := rerankIndices_lt _ _
        set full := idxs ++ (List.range n).filter (fun i => i ∉ idxs) with hfull
        have hfullnd : full.Nodup := by
          refine List.Nodup.append hnd ((List.nodup_range n).filter _) ?_
          intro a ha hb
          have h1 : a ∉ idxs := by simpa using List.of_mem_filter hb
          exact h1 ha
        have hperm : full.Perm (List.range n) := by
          refine (List.perm_ext_iff_of_nodup hfullnd (List.nodup_range n)).mpr ?_
          intro a
          constructor
          · intro h
            rcases List.mem_append.mp h with h | h
            · exact List.mem_range.mpr (hlt a h)
            · exact List.mem_filter.mp h |>.1
          · intro h
            by_cases hin : a ∈ idxs
            · exact List.mem_append.mpr (Or.inl hin)
            · exact List.mem_append.mpr (Or.inr (List.mem_filter.mpr ⟨h, by simpa using hin⟩))
        have hself : full.filter (fun i => i < n) = full := by
          refine List.filter_eq_self.mpr ?_
          intro a ha
          have : a ∈ List.range n := hperm.subset ha
          simpa using List.mem_range.mp this
        calc ((full.filter (fun i => i < n)).map (fun i => docs.getD i dfltDoc)).Perm
              ((List.range n).map (fun i => docs.getD i dfltDoc)) := by
              rw [hself]; exact hperm.map _
      _ = docs := map_getD_range docs dfltDoc

/-- C5: for every non-empty document list and every generator output,
re-ranking returns a permutation of the input (no document dropped or
duplicated; out-of-range and repeated indices discarded, omitted
indices appended), and on a generator error the original order is
returned unchanged.  (The inner parse loop of rag_retriever.py:234-242
cannot itself fail: `int` of a digit run always succeeds, so "parse
failure" never alters the result.) -/
theorem C5_rerank_is_permutation (gen : GenOutcome) (docs : List Doc)
    (hne : docs ≠ []) :
    (rerankDocs gen docs).Perm docs ∧
    (gen = .error () → rerankDocs gen docs = docs) := by
  refine ⟨rerankDocs_perm gen docs, ?_⟩
  intro hgen
  subst hgen
  unfold rerankDocs
  rw [if_neg (by simpa using hne)]

/-- Witness for `C5_rerank_is_permutation` on three concrete documents
with the generator answering "2,3,1". -/
theorem C5_rerank_is_permutation_witness :
    (rerankDocs (.ok "2,3,1")
        [⟨"甲", some "a", none, none, none⟩,
         ⟨"乙", some "b", none, none, none⟩,
         ⟨"丙", some "c", none, none, none⟩]).Perm
      [⟨"甲", some "a", none, none, none⟩,
       ⟨"乙", some "b", none, none, none⟩,
       ⟨"丙", some "c", none, none, none⟩] :=
  (C5_rerank_is_permutation (.ok "2,3,1")
    [⟨"甲", some "a", none, none, none⟩,
     ⟨"乙", some "b", none, none, none⟩,
     ⟨"丙", some "c", none, none, none⟩] (by decide)).1

/-! ## Retrieval result invariants (C6) -/

theorem processDocuments_foldl (jsonOk : String → Bool) (docs : List Doc) :
    ∀ (acc1 : List PDoc) (acc2 : List String),
      docs.foldl
        (fun acc d => (acc.1 ++ [processOne jsonOk d], appendNew acc.2 (sourceOf d)))
        (acc1, acc2) =
      (acc1 ++ docs.map (processOne jsonOk), (docs.map sourceOf).foldl appendNew acc2) := by
  induction docs with
  | nil => intro acc1 acc2; simp
  | cons d t ih =>
      intro acc1 acc2
      rw [List.foldl_cons, List.map_cons, List.map_cons, List.foldl_cons, ih]
      simp [List.append_assoc]

/-- `_process_documents` emits one processed record per input document
and accumulates exactly the first-appearance deduplication of their
source fields. -/
theorem processDocuments_spec (jsonOk : String → Bool) (docs : List Doc) :
    processDocuments jsonOk docs =
      (docs.map (processOne jsonOk), dedupFirst (docs.map sourceOf)) := by
  unfold processDocuments dedupFirst
  simpa using processDocuments_foldl jsonOk docs [] []

theorem dedupFirst_foldl_nodup (l : List String) :
    ∀ acc : List String, acc.Nodup → (l.foldl appendNew acc).Nodup := by
  induction l with
  | nil => exact fun acc h => h
  | cons a t ih =>
      intro acc h
      rw [List.foldl_cons]
      unfold appendNew
      by_cases hm : a ∈ acc
      · rw [if_pos hm]
        exact ih acc h
      · rw [if_neg hm]
        refine ih _ (List.Nodup.append h (List.nodup_singleton a) ?_)
        intro x hx hxa
        rw [List.mem_singleton] at hxa
        exact hm (hxa ▸ hx)

theorem dedupFirst_nodup (l : List String) : (dedupFirst l).Nodup :=
  dedupFirst_foldl_nodup l [] List.nodup_nil

theorem maybeRerank_length (rg : GenOutcome) (l : List Doc) :
    (maybeRerank rg l).length = l.length := by
  unfold maybeRerank
  split
  · exact (rerankDocs_perm rg l).length_eq
  · rfl

theorem backfilled_length_le (so : SearchOracle) (q : String)
    (intent : IntentType) (k : Nat) (docs0 : List Doc)
    (h0 : docs0.length ≤ k) :
    (backfilled so q intent k docs0).length ≤ k := by
  unfold backfilled
  split
  · split
    · exact h0
    · rw [List.length_take]
      exact Nat.min_le_left _ _
  · exact h0

theorem retrieveDocs_length_le (so : SearchOracle) (rg : GenOutcome)
    (q : String) (intent : IntentType) (k : Nat)
    (hso : ∀ sid q' k' d s, so sid q' k' = .ok (d, s) → d.length ≤ k') :
    (retrieveDocs so rg q intent k).length ≤ k := by
  unfold retrieveDocs
  cases hc : so (storeOf intent) q k with
  | error e => simp
  | ok pair =>
      have h0 : pair.1.length ≤ k := hso _ _ _ pair.1 pair.2 (by rw [hc])
      rw [maybeRerank_length]
      exact backfilled_length_le so q intent k pair.1 h0

theorem multiStep_length_le (so : SearchOracle) (q : String) (k : Nat)
    (hso : ∀ sid q' k' d s, so sid q' k' = .ok (d, s) → d.length ≤ k')
    (acc : List Doc × List String) (i : IntentType) :
    (multiStep so q k acc i).1.length ≤ acc.1.length + k := by
  unfold multiStep
  cases hc : so (storeOf i) q k with
  | error e => exact Nat.le_add_right _ _
  | ok pair =>
      have h0 : pair.1.length ≤ k := hso _ _ _ pair.1 pair.2 (by rw [hc])
      simpa [List.length_append] using Nat.add_le_add_left h0 acc.1.length

theorem multiFold_length_le (so : SearchOracle) (q : String) (k : Nat)
    (hso : ∀ sid q' k' d s, so sid q' k' = .ok (d, s) → d.length ≤ k')
    (is : List IntentType) :
    ∀ acc : List Doc × List String,
      (is.foldl (multiStep so q k) acc).1.length ≤ acc.1.length + is.length * k := by
  induction is with
  | nil => intro acc; simp
  | cons i t ih =>
      intro acc
      rw [List.foldl_cons]
      calc (t.foldl (multiStep so q k) (multiStep so q k acc i)).1.length
          ≤ (multiStep so q k acc i).1.length + t.length * k := ih _
        _ ≤ acc.1.length + k + t.length * k :=
            Nat.add_le_add_right (multiStep_length_le so q k hso acc i) _
        _ = acc.1.length + (t.length + 1) * k := by ring
        _ = acc.1.length + (i :: t).length * k := by rw [List.length_cons]

/-- A two-partition store: the product and order partitions each hold
one document (respecting `k`), the others raise. -/
def c6Oracle : SearchOracle := fun sid _ k =>
  match sid with
  | .product => .ok ([⟨"产品文档", some "p.json", none, none, none⟩].take k, ["p.json"])
  | .order => .ok ([⟨"订单文档", some "o.json", none, none, none⟩].take k, ["o.json"])
  | _ => .error ()

theorem c6Oracle_bounded :
    ∀ sid q' k' d s, c6Oracle sid q' k' = .ok (d, s) → d.length ≤ k' := by
  intro sid q' k' d s h
  cases sid <;> simp [c6Oracle] at h <;>
    simp [← h.1, List.length_take]

/-- C6 counterexample: `multi_vector_store_search` with `topK = 1`
against partitions that each return at most `topK` documents yields a
result with 2 documents — the claim's bound `≤ topK` fails for the
multi-store variant (it concatenates the per-partition results without
truncation). -/
theorem C6_counterexample :
    1 < (multiVectorStoreSearch c6Oracle (.error ()) (fun _ => false) "查询" 1).documents.length ∧
    (∀ sid q' k' d s, c6Oracle sid q' k' = .ok (d, s) → d.length ≤ k') :=
  ⟨by decide, c6Oracle_bounded⟩

/-- C6 (amended): when every partition search returns at most `k`
documents, `retrieve` returns at most `topK` documents, emits one
processed record per retained document, and reports exactly the
first-appearance deduplication of the retained documents' source
fields (in particular a duplicate-free list); the multi-store variant
guarantees only the weaker bound of `topK` documents per partition,
i.e. at most `4 * topK` in total, and accumulates its sources per
partition instead of recomputing them from the final documents. -/
theorem C6_amended (so : SearchOracle) (rg : GenOutcome) (jsonOk : String → Bool)
    (q : String) (intent : IntentType) (k : Nat)
    (hso : ∀ sid q' k' d s, so sid q' k' = .ok (d, s) → d.length ≤ k') :
    (retrieve so rg jsonOk q intent k).documents.length ≤ k ∧
    (retrieve so rg jsonOk q intent k).documents =
      (retrieveDocs so rg q intent k).map (processOne jsonOk) ∧
    (retrieve so rg jsonOk q intent k).sources =
      dedupFirst ((retrieveDocs so rg q intent k).map sourceOf) ∧
    (retrieve so rg jsonOk q intent k).sources.Nodup ∧
    (multiVectorStoreSearch so rg jsonOk q k).documents.length ≤ 4 * k := by
  have hretr : retrieve so rg jsonOk q intent k =
      ⟨(retrieveDocs so rg q intent k).map (processOne jsonOk),
       dedupFirst ((retrieveDocs so rg q intent k).map sourceOf), q⟩ := by
    unfold retrieve
    rw [processDocuments_spec]
  refine ⟨?_, ?_, ?_, ?_, ?_⟩
  · rw [hretr]
    simpa using retrieveDocs_length_le so rg q intent k hso
  · rw [hretr]
  · rw [hretr]
  · rw [hretr]
    exact dedupFirst_nodup _
  · unfold multiVectorStoreSearch
    rw [processDocuments_spec]
    simp only [List.length_map, maybeRerank_length]
    have hall := multiFold_length_le so q k hso
      [IntentType.product_inquiry, .order_status, .return_refund, .general_inquiry]
      ([], [])
    unfold multiAll
    simpa using hall

/-- Witness for `C6_amended` with the concrete two-partition store,
`topK = 1`, intent `product_inquiry`. -/
theorem C6_amended_witness :
    (retrieve c6Oracle (.error ()) (fun _ => false) "查询" .product_inquiry 1).documents.length ≤ 1 ∧
    (retrieve c6Oracle (.error ()) (fun _ => false) "查询" .product_inquiry 1).documents =
      (retrieveDocs c6Oracle (.error ()) "查询" .product_inquiry 1).map (processOne (fun _ => false)) ∧
    (retrieve c6Oracle (.error ()) (fun _ => false) "查询" .product_inquiry 1).sources =
      dedupFirst ((retrieveDocs c6Oracle (.error ()) "查询" .product_inquiry 1).map sourceOf) ∧
    (retrieve c6Oracle (.error ()) (fun _ => false) "查询" .product_inquiry 1).sources.Nodup ∧
    (multiVectorStoreSearch c6Oracle (.error ()) (fun _ => false) "查询" 1).documents.length ≤ 4 * 1 :=
  C6_amended c6Oracle (.error ()) (fun _ => false) "查询" .product_inquiry 1 c6Oracle_bounded

/-! ## Per-partition error isolation (C3) -/

theorem foldl_guarded_append {α β : Type} [DecidableEq α] (x : α)
    (f : α → List β) (l : List α) :
    ∀ acc : List β,
      l.foldl (fun acc i => if i ≠ x then acc ++ f i else acc) acc =
        acc ++ (l.filter (fun i => i ≠ x)).flatMap f := by
  induction l with
  | nil => intro acc; simp
  | cons a t ih =>
      intro acc
      rw [List.foldl_cons]
      by_cases hp : a ≠ x
      · rw [if_pos hp, ih]
        simp [hp, List.append_assoc]
      · rw [if_neg hp, ih]
        simp [hp]

/-- The doc store whose product partition raises while every other
partition (the general one included) succeeds with one document. -/
def c3Oracle : SearchOracle := fun sid _ _ =>
  match sid with
  | .product => .error ()
  | _ => .ok ([⟨"通用知识", some "general.json", none, none, none⟩], ["general.json"])

/-- C3 counterexample: the primary (product) partition raises while
the general partition succeeds with a document — yet `retrieve`
returns the empty result: the outer exception handler of
rag_retriever.py:93-100 discards everything, so the general
partition's documents are NOT returned as the claim requires. -/
theorem C3_counterexample :
    retrieve c3Oracle (.error ()) (fun _ => false) "商品咨询" .product_inquiry 5 =
      ⟨[], [], "商品咨询"⟩ ∧
    storeSearchDocs c3Oracle .general "商品咨询" 2 =
      [⟨"通用知识", some "general.json", none, none, none⟩] :=
  ⟨rfl, rfl⟩

/-- C3 (amended): no partition exception ever propagates out of
`retrieve`, but the isolation is asymmetric.  An exception from the
primary partition's search is caught by the outer handler and yields
the empty result — the backfill never runs and other partitions'
results are discarded.  Only within the backfill
(`_retrieve_from_multiple_stores`) is each partition's exception
confined to that partition: the backfill output is exactly the
concatenation of each consulted partition's own contribution (empty
for a raising partition, via `storeSearchDocs`). -/
theorem C3_amended (so : SearchOracle) (rg : GenOutcome) (jsonOk : String → Bool)
    (q : String) (intent : IntentType) (k : Nat) :
    (so (storeOf intent) q k = .error () →
      retrieve so rg jsonOk q intent k = ⟨[], [], q⟩) ∧
    retrieveFromMultipleStores so q intent k =
      (if intent ≠ IntentType.general_inquiry then
        storeSearchDocs so .general q (k / 2)
      else []) ++
      ((getRelatedIntents intent q).filter (fun i => i ≠ intent)).flatMap
        (fun i => storeSearchDocs so (storeOf i) q (k / 2)) := by
  constructor
  · intro herr
    unfold retrieve retrieveDocs
    rw [herr]
    rfl
  · unfold retrieveFromMultipleStores
    exact foldl_guarded_append intent
      (fun i => storeSearchDocs so (storeOf i) q (k / 2))
      (getRelatedIntents intent q) _

/-- Witness for `C3_amended` at the concrete store `c3Oracle` (primary
partition raising, general partition succeeding). -/
theorem C3_amended_witness :
    retrieve c3Oracle (.error ()) (fun _ => false) "商品咨询" .product_inquiry 5 =
      ⟨[], [], "商品咨询"⟩ ∧
    retrieveFromMultipleStores c3Oracle "商品咨询" .product_inquiry 5 =
      (if IntentType.product_inquiry ≠ IntentType.general_inquiry then
        storeSearchDocs c3Oracle .general "商品咨询" (5 / 2)
      else []) ++
      ((getRelatedIntents .product_inquiry "商品咨询").filter
          (fun i => i ≠ IntentType.product_inquiry)).flatMap
        (fun i => storeSearchDocs c3Oracle (storeOf i) "商品咨询" (5 / 2)) := by
  have h := C3_amended c3Oracle (.error ()) (fun _ => false) "商品咨询" .product_inquiry 5
  exact ⟨h.1 rfl, h.2⟩

/-! ## Session-store lemmas (C7, C10) -/

/-- The keys of the sessions dict. -/
def keysOf (m : Sessions) : List String := m.map Prod.fst

theorem lookupSess_cons_self (k : String) (d : SessionData) (t : Sessions) :
    lookupSess ((k, d) :: t) k = some d := by
  unfold lookupSess
  rw [List.find?_cons_of_pos _ (by simp)]
  rfl

theorem lookupSess_cons_ne (k k' : String) (d : SessionData) (t : Sessions)
    (h : k' ≠ k) :
    lookupSess ((k, d) :: t) k' = lookupSess t k' := by
  unfold lookupSess
  rw [List.find?_cons_of_neg _ (by simp [Ne.symm h])]

theorem lookupSess_find? (m : Sessions) (k : String) (d : SessionData)
    (h : lookupSess m k = some d) :
    m.find? (fun p => p.1 = k) = some (k, d) := by
  unfold lookupSess at h
  cases hf : m.find? (fun p => p.1 = k) with
  | none =>
      rw [hf] at h
      exact absurd h (by simp)
  | some q =>
      rw [hf] at h
      have h1 : q.2 = d := by simpa using h
      have h2 : q.1 = k := by simpa using List.find?_some hf
      rw [← h1, ← h2]

theorem lookupSess_eq_none_of_not_mem (m : Sessions) (k : String)
    (h : k ∉ keysOf m) : lookupSess m k = none := by
  unfold lookupSess
  rw [List.find?_eq_none.mpr]
  · rfl
  · intro x hx
    simp only [decide_eq_true_eq]
    intro he
    exact h (List.mem_map.mpr ⟨x, hx, he⟩)

theorem lookupSess_append_left (m l : Sessions) (k : String) (d : SessionData)
    (h : lookupSess m k = some d) : lookupSess (m ++ l) k = some d := by
  unfold lookupSess
  rw [List.find?_append, lookupSess_find? m k d h]
  rfl

theorem lookupSess_append_fresh (m : Sessions) (k : String) (d : SessionData)
    (h : lookupSess m k = none) : lookupSess (m ++ [(k, d)]) k = some d := by
  have hf : m.find? (fun p => p.1 = k) = none := by
    unfold lookupSess at h
    cases hf : m.find? (fun p => p.1 = k) with
    | none => rfl
    | some q => rw [hf] at h; exact absurd h (by simp)
  unfold lookupSess
  rw [List.find?_append, hf, Option.none_or, List.find?_cons_of_pos _ (by simp)]
  rfl

theorem lookupSess_updateSess (m : Sessions) (k k' : String)
    (f : SessionData → SessionData) :
    lookupSess (updateSess m k f) k' =
      if k' = k then (lookupSess m k').map f else lookupSess m k' := by
  unfold lookupSess updateSess
  rw [List.find?_map]
  have hpred : ((fun p : String × SessionData => decide (p.1 = k')) ∘
      (fun p => if p.1 = k then (p.1, f p.2) else p)) =
      fun p : String × SessionData => decide (p.1 = k') := by
    funext p
    by_cases h : p.1 = k <;> simp [Function.comp, h]
  rw [hpred]
  cases hf : m.find? (fun p : String × SessionData => decide (p.1 = k')) with
  | none => split <;> simp
  | some q =>
      have hq : q.1 = k' := by simpa using List.find?_some hf
      by_cases he : k' = k
      · rw [if_pos he]
        simp [hq, he]
      · rw [if_neg he]
        simp [hq, he]

theorem lookupSess_update_self (m : Sessions) (k : String)
    (f : SessionData → SessionData) :
    lookupSess (updateSess m k f) k = (lookupSess m k).map f := by
  rw [lookupSess_updateSess, if_pos rfl]

theorem lookupSess_update_ne (m : Sessions) (k k' : String)
    (f : SessionData → SessionData) (h : k' ≠ k) :
    lookupSess (updateSess m k f) k' = lookupSess m k' := by
  rw [lookupSess_updateSess, if_neg h]

theorem lookupSess_filter_keeps (p : String × SessionData → Bool) (m : Sessions)
    (k : String) (d : SessionData)
    (h : lookupSess m k = some d) (hp : p (k, d) = true) :
    lookupSess (m.filter p) k = some d := by
  induction m with
  | nil => exact absurd h (by simp [lookupSess])
  | cons q t ih =>
      obtain ⟨k1, d1⟩ := q
      by_cases he : k1 = k
      · subst he
        rw [lookupSess_cons_self] at h
        cases h
        rw [List.filter_cons, if_pos hp]
        exact lookupSess_cons_self _ _ _
      · have hke : k ≠ k1 := fun hh => he hh.symm
        rw [lookupSess_cons_ne _ _ _ _ hke] at h
        rw [List.filter_cons]
        split
        · rw [lookupSess_cons_ne _ _ _ _ hke]
          exact ih h
        · exact ih h

theorem lookupSess_filter_drops (p : String × SessionData → Bool) (m : Sessions)
    (k : String) (d : SessionData)
    (hnd : (keysOf m).Nodup)
    (h : lookupSess m k = some d) (hp : p (k, d) = false) :
    lookupSess (m.filter p) k = none := by
  induction m with
  | nil => exact absurd h (by simp [lookupSess])
  | cons q t ih =>
      obtain ⟨k1, d1⟩ := q
      have hnd' : (keysOf t).Nodup := by
        rw [keysOf, List.map_cons, List.nodup_cons] at hnd
        exact hnd.2
      by_cases he : k1 = k
      · subst he
        have hnotin : k1 ∉ keysOf t := by
          rw [keysOf, List.map_cons, List.nodup_cons] at hnd
          exact hnd.1
        rw [lookupSess_cons_self] at h
        cases h
        rw [List.filter_cons, if_neg (by rw [hp]; simp)]
        refine lookupSess_eq_none_of_not_mem _ _ (fun hm => hnotin ?_)
        rcases List.mem_map.mp hm with ⟨x, hx, hxe⟩
        exact List.mem_map.mpr ⟨x, List.mem_of_mem_filter hx, hxe⟩
      · have hke : k ≠ k1 := fun hh => he hh.symm
        rw [lookupSess_cons_ne _ _ _ _ hke] at h
        rw [List.filter_cons]
        split
        · rw [lookupSess_cons_ne _ _ _ _ hke]
          exact ih hnd' h
        · exact ih hnd' h

theorem keysOf_updateSess (m : Sessions) (k : String)
    (f : SessionData → SessionData) :
    keysOf (updateSess m k f) = keysOf m := by
  unfold keysOf updateSess
  rw [List.map_map]
  refine List.map_congr_left ?_
  intro p _
  by_cases he : p.1 = k
  · simp [Function.comp, he]
  · simp [Function.comp, he]

theorem keysOf_filter_subset (p : String × SessionData → Bool) (m : Sessions)
    (k : String) (h : k ∈ keysOf (m.filter p)) : k ∈ keysOf m := by
  rcases List.mem_map.mp h with ⟨x, hx, hxe⟩
  exact List.mem_map.mpr ⟨x, List.mem_of_mem_filter hx, hxe⟩

/-- `getSession` never changes the configured TTL. -/
theorem getSession_ttl (st : SMState) (sid : PyVal) (now : Nat) (f : String) :
    (getSession st sid now f).2.ttl = st.ttl := rfl

/-- The id `getSession` resolves for an invalid incoming id is the
fresh one. -/
theorem getSession_fst_invalid (st : SMState) (sid : PyVal) (now : Nat)
    (f : String) (hinv : invalidSessionId sid = true) :
    (getSession st sid now f).1 = f := by
  simp [getSession, resolveId, hinv]

/-- The id `getSession` resolves for a valid string id is that id. -/
theorem getSession_fst_valid (st : SMState) (s : String) (now : Nat)
    (f : String) (hv : invalidSessionId (.str s) = false) :
    (getSession st (.str s) now f).1 = s := by
  simp [getSession, resolveId, hv]

theorem not_mem_keysOf_of_lookup_none (m : Sessions) (k : String)
    (h : lookupSess m k = none) : k ∉ keysOf m := by
  intro hm
  rcases List.mem_map.mp hm with ⟨p, hp, hpe⟩
  have hf : m.find? (fun p => p.1 = k) = none := by
    unfold lookupSess at h
    cases hff : m.find? (fun p => p.1 = k) with
    | none => rfl
    | some q => rw [hff] at h; exact absurd h (by simp)
  have h2 := List.find?_eq_none.mp hf p hp
  simp only [decide_eq_true_eq] at h2
  exact h2 hpe

theorem lookupSess_cleanup_keeps (ttl now : Nat) (m : Sessions) (k : String)
    (d : SessionData) (h : lookupSess m k = some d)
    (hlive : now - d.last_active ≤ ttl) :
    lookupSess (cleanupExpired ttl now m) k = some d := by
  unfold cleanupExpired
  exact lookupSess_filter_keeps _ _ _ _ h (by simpa using hlive)

theorem lookupSess_cleanup_drops (ttl now : Nat) (m : Sessions) (k : String)
    (d : SessionData) (hnd : (keysOf m).Nodup)
    (h : lookupSess m k = some d) (hstale : ttl < now - d.last_active) :
    lookupSess (cleanupExpired ttl now m) k = none := by
  unfold cleanupExpired
  refine lookupSess_filter_drops _ _ _ _ hnd h ?_
  simpa using Nat.not_le_of_lt hstale

/-- Key structure of the touched store: no key is lost, and at most
the resolved id is added. -/
theorem keysOf_touched_nodup (m : Sessions) (g : String) (now : Nat)
    (hnd : (keysOf m).Nodup) :
    (keysOf (touchedSessions m g now)).Nodup := by
  unfold touchedSessions
  cases hl : lookupSess m g with
  | none =>
      rw [keysOf, List.map_append]
      refine List.Nodup.append hnd (by simp) ?_
      intro x hx hx2
      have hxg : x = g := by simpa using hx2
      exact not_mem_keysOf_of_lookup_none m g hl (hxg ▸ hx)
  | some e =>
      rw [keysOf_updateSess]
      exact hnd

/-- A live (non-expired) session entry under a key other than the
resolved one survives `getSession` untouched. -/
theorem getSession_preserves_live (st : SMState) (sid : PyVal) (now : Nat)
    (f k : String) (d : SessionData)
    (hk : lookupSess st.sessions k = some d)
    (hlive : now - d.last_active ≤ st.ttl)
    (hne : resolveId sid f ≠ k) :
    lookupSess (getSession st sid now f).2.sessions k = some d := by
  show lookupSess (cleanupExpired st.ttl now
    (touchedSessions st.sessions (resolveId sid f) now)) k = some d
  refine lookupSess_cleanup_keeps _ _ _ _ _ ?_ hlive
  unfold touchedSessions
  cases hl : lookupSess st.sessions (resolveId sid f) with
  | none => exact lookupSess_append_left _ _ _ _ hk
  | some e =>
      rw [lookupSess_update_ne _ _ _ _ (Ne.symm hne)]
      exact hk

/-- `getSession` with an unknown resolved id creates exactly the fresh
session under that id. -/
theorem getSession_creates (st : SMState) (sid : PyVal) (now : Nat)
    (f : String)
    (hres : resolveId sid f = f)
    (hf : lookupSess st.sessions f = none) :
    (getSession st sid now f).1 = f ∧
    lookupSess (getSession st sid now f).2.sessions f = some (newSession now) := by
  refine ⟨hres, ?_⟩
  show lookupSess (cleanupExpired st.ttl now
    (touchedSessions st.sessions (resolveId sid f) now)) f = some (newSession now)
  rw [hres]
  unfold touchedSessions
  rw [hf]
  exact lookupSess_cleanup_keeps _ _ _ _ _
    (lookupSess_append_fresh _ _ _ hf) (by simp [newSession])

/-- Every key of the post-`getSession` store is an old key or the
resolved id. -/
theorem getSession_keys_subset (st : SMState) (sid : PyVal) (now : Nat)
    (f k : String)
    (h : k ∈ keysOf (getSession st sid now f).2.sessions) :
    k ∈ keysOf st.sessions ∨ k = resolveId sid f := by
  have h1 : k ∈ keysOf (touchedSessions st.sessions (resolveId sid f) now) :=
    keysOf_filter_subset _ _ _ h
  unfold touchedSessions at h1
  cases hl : lookupSess st.sessions (resolveId sid f) with
  | none =>
      rw [hl] at h1
      rw [keysOf, List.map_append] at h1
      rcases List.mem_append.mp h1 with h2 | h2
      · exact Or.inl h2
      · right
        simpa using h2
  | some e =>
      rw [hl, keysOf_updateSess] at h1
      exact Or.inl h1

/-- The session store with one stale session (last active at time 0,
TTL 10 seconds) holding one message. -/
def c7State : SMState := ⟨[("过期会话", ⟨0, 0, [⟨"user", "旧消息"⟩], []⟩)], 10⟩

/-- C7 counterexample: at time 100, far past the 10-second TTL, a
`get_session` by the stale session's own id does NOT return a freshly
created session: `get_session` refreshes `last_active` *before* the
sweep runs (session_manager.py:48-53), so the stale session survives
the sweep and is returned with its old creation time and its history
intact, and it remains in the store. -/
theorem C7_counterexample :
    (getSession c7State (.str "过期会话") 100 "新id").1 = "过期会话" ∧
    lookupSess (getSession c7State (.str "过期会话") 100 "新id").2.sessions "过期会话" =
      some ⟨0, 100, [⟨"user", "旧消息"⟩], []⟩ :=
  ⟨rfl, rfl⟩

/-- C7 (amended): the per-get sweep does evict a session stale for
more than `ttl` seconds, but only when the `get` is for a *different*
id; a `get` by the stale session's own id refreshes its `last_active`
before the sweep, so the stale session survives and is returned with
its history intact, not replaced by a fresh one. -/
theorem C7_amended (st : SMState) (s k : String) (d : SessionData)
    (now : Nat) (f : String)
    (hv : invalidSessionId (.str s) = false)
    (hnd : (keysOf st.sessions).Nodup)
    (hk : lookupSess st.sessions k = some d)
    (hstale : st.ttl < now - d.last_active) :
    (s ≠ k → lookupSess (getSession st (.str s) now f).2.sessions k = none) ∧
    (s = k → (getSession st (.str s) now f).1 = k ∧
      lookupSess (getSession st (.str s) now f).2.sessions k =
        some { d with last_active := now }) := by
  have hres : resolveId (.str s) f = s := by simp [resolveId, hv]
  constructor
  · intro hne
    show lookupSess (cleanupExpired st.ttl now
      (touchedSessions st.sessions (resolveId (.str s) f) now)) k = none
    refine lookupSess_cleanup_drops _ _ _ _ _
      (keysOf_touched_nodup _ _ _ hnd) ?_ hstale
    unfold touchedSessions
    cases hl : lookupSess st.sessions (resolveId (.str s) f) with
    | none => exact lookupSess_append_left _ _ _ _ hk
    | some e =>
        rw [lookupSess_update_ne _ _ _ _ (by rw [hres]; exact Ne.symm hne)]
        exact hk
  · intro he
    subst he
    refine ⟨getSession_fst_valid st s now f hv, ?_⟩
    show lookupSess (cleanupExpired st.ttl now
      (touchedSessions st.sessions (resolveId (.str s) f) now)) s = _
    rw [hres]
    unfold touchedSessions
    rw [hk]
    refine lookupSess_cleanup_keeps _ _ _ _ _ ?_ (by simp)
    rw [lookupSess_update_self, hk]
    rfl

/-- Witness for `C7_amended`: applied once with a different live id
(the stale session is gone afterwards) and once with the stale
session's own id (it survives with history intact). -/
theorem C7_amended_witness :
    lookupSess (getSession c7State (.str "活跃用户") 100 "新id").2.sessions "过期会话" = none ∧
    lookupSess (getSession c7State (.str "过期会话") 100 "新id2").2.sessions "过期会话" =
      some ⟨0, 100, [⟨"user", "旧消息"⟩], []⟩ :=
  ⟨(C7_amended c7State "活跃用户" "过期会话" ⟨0, 0, [⟨"user", "旧消息"⟩], []⟩ 100 "新id"
      (by decide) (by decide) rfl (by decide)).1 (by decide),
   ((C7_amended c7State "过期会话" "过期会话" ⟨0, 0, [⟨"user", "旧消息"⟩], []⟩ 100 "新id2"
      (by decide) (by decide) rfl (by decide)).2 rfl).2⟩

/-! ## Blank-query validation (C8) -/

theorem pyStrip_all_space (s : String) (h : s.data.all pyIsSpace = true) :
    pyStrip s = "" := by
  unfold pyStrip
  have h1 : s.data.dropWhile pyIsSpace = [] :=
    List.dropWhile_eq_nil_iff.mpr (fun x hx => List.all_eq_true.mp h x hx)
  rw [h1]
  rfl

/-- C8: a query that is empty or consists only of whitespace is
rejected by the route guard (routes.py:32-33) with HTTP 422 before
`process_chat` runs: the result is the bare validation error — no
session write, no classification, no retrieval and no generation
occurs (the `RouteResult.validationError` constructor carries no
successor state and no event trace, and `processChat` is only invoked
on the other branch). -/
theorem C8_blank_query_rejected (env : Env) (freshIds : Nat → String)
    (st : SMState) (query session_id : String) (now : Nat) (routeFresh : String)
    (hws : query.data.all pyIsSpace = true) :
    chatRoute env freshIds st query session_id now routeFresh =
      .validationError 422 "查询内容不能为空" := by
  unfold chatRoute
  rw [if_pos]
  rw [pyStrip_all_space query hws]
  simp

/-- Witness for `C8_blank_query_rejected` on the whitespace-only query
`"  \t "`. -/
theorem C8_blank_query_rejected_witness :
    chatRoute ⟨⟨.error (), .error ()⟩, fun _ => none, .error (), .error (), .error (),
        fun _ _ _ => .error (), .error (), fun _ => false⟩
      (fun _ => "uuid0") ⟨[], 86400⟩ "  \t " "会话甲" 0 "uuid1" =
      .validationError 422 "查询内容不能为空" :=
  C8_blank_query_rejected _ (fun _ => "uuid0") ⟨[], 86400⟩ "  \t " "会话甲" 0 "uuid1"
    (by decide)

/-! ## The structured order branch (C1) -/

theorem strContains_OD_of_match (q : String) (t r : List Char)
    (ht : t ∈ q.data.tails) (hm : odMatchAt t = some r) :
    strContains q "OD" = true := by
  unfold strContains
  rw [List.any_eq_true]
  refine ⟨t, ht, ?_⟩
  cases t with
  | nil => exact absurd hm (by simp [odMatchAt])
  | cons c1 t1 =>
      cases t1 with
      | nil => exact absurd hm (by simp [odMatchAt])
      | cons c2 rest =>
          have hm' : (if c1 = 'O' ∧ c2 = 'D' ∧
              10 ≤ (rest.takeWhile Char.isDigit).length then
                some (c1 :: c2 :: (rest.takeWhile Char.isDigit).take 12)
              else none) = some r := hm
          by_cases hcond : c1 = 'O' ∧ c2 = 'D' ∧
              10 ≤ (rest.takeWhile Char.isDigit).length
          · obtain ⟨h1, h2, _⟩ := hcond
            subst h1
            subst h2
            show (['O', 'D'].isPrefixOf ('O' :: 'D' :: rest)) = true
            simp [List.isPrefixOf]
          · rw [if_neg hcond] at hm'
            exact absurd hm' (by simp)

/-- An extractable order id forces the classifier override: the `OD`
prefix of the match makes `'OD' in query` true, so
`_contains_order_id` holds whatever the keyword check yields. -/
theorem containsOrderId_of_extract (q oid : String)
    (h : extractOrderId q = some oid) : containsOrderId q = true := by
  have hsome : (reSearchOrderId q.data).isSome = true := by
    unfold extractOrderId at h
    cases hr : reSearchOrderId q.data with
    | none => rw [hr] at h; exact absurd h (by simp)
    | some r => rfl
  obtain ⟨r, hr⟩ := Option.isSome_iff_exists.mp hsome
  have hmem : r ∈ q.data.tails.filterMap odMatchAt :=
    List.mem_of_mem_head? (Option.mem_def.mpr hr)
  obtain ⟨t, ht, hodm⟩ := List.mem_filterMap.mp hmem
  have hOD := strContains_OD_of_match q t r ht hodm
  unfold containsOrderId
  rw [hsome, hOD]
  simp

/-- C1 (amended): whenever an order id is extracted from the query and
the structured lookup succeeds, the response comes from the structured
order branch — intent `order_status` (the override makes the classifier
deterministic here), fixed sources `["order_samples.json"]`, no
retrieval — but the branch performs exactly ONE generator invocation
(`_generate_order_response`, chat_service.py:200), not zero as the
claim states; if that invocation fails, the fixed fallback naming the
order id is returned (visible in `generateOrderResponse`). -/
theorem C1_amended (env : Env) (freshIds : Nat → String) (st : SMState)
    (q : String) (sid : PyVal) (now : Nat) (oid info : String)
    (hoid : extractOrderId q = some oid)
    (hlook : env.orderLookup oid = some info) :
    (processChat env freshIds st ⟨q, sid⟩ now).events = [.orderGenCall] ∧
    (processChat env freshIds st ⟨q, sid⟩ now).response =
      ⟨generateOrderResponse env oid, some .order_status,
       some ["order_samples.json"]⟩ := by
  have hcid := containsOrderId_of_extract q oid hoid
  have hcls : classify env.classifierGen q = (⟨.order_status, 95/100, none⟩, false) := by
    simp [classify, hcid]
  have hstruct : pcStructured env q = some oid := by
    simp [pcStructured, hcls, hoid, hlook]
  constructor <;>
    simp [processChat, hstruct, hcls]

/-- The environment for the concrete order-branch run: order
`OD2023110512` exists, the generator succeeds once with a shipping
answer, and everything else fails. -/
def c1Env : Env :=
  { classifierGen := ⟨.error (), .error ()⟩,
    orderLookup := fun oid => if oid = "OD2023110512" then some "订单数据" else none,
    orderGen := .ok "您的订单OD2023110512已由顺丰发出，运单号SF123456。",
    mainGen := .error (),
    mainDirect := .error (),
    search := fun _ _ _ => .error (),
    rerankGen := .error (),
    jsonOk := fun _ => false }

/-- C1 counterexample: on the structured order branch (order id found
and resolved, intent `order_status`, fixed sources
`["order_samples.json"]`), the event trace contains a generator
invocation — `_generate_order_response` calls `llm.ainvoke`
(chat_service.py:200), so this path is NOT generator-free as the claim
states. -/
theorem C1_counterexample :
    (processChat c1Env (fun _ => "新会话") ⟨[], 86400⟩
        ⟨"我的订单号是OD2023110512，帮我查一下物流", .str "用户甲"⟩ 0).events =
      [.orderGenCall] ∧
    (processChat c1Env (fun _ => "新会话") ⟨[], 86400⟩
        ⟨"我的订单号是OD2023110512，帮我查一下物流", .str "用户甲"⟩ 0).response.sources =
      some ["order_samples.json"] :=
  ⟨rfl, rfl⟩

/-- Witness for `C1_amended` at the concrete environment and query. -/
theorem C1_amended_witness :
    (processChat c1Env (fun _ => "新会话") ⟨[], 86400⟩
        ⟨"我的订单号是OD2023110512，帮我查一下物流", .str "用户甲"⟩ 0).events =
      [.orderGenCall] ∧
    (processChat c1Env (fun _ => "新会话") ⟨[], 86400⟩
        ⟨"我的订单号是OD2023110512，帮我查一下物流", .str "用户甲"⟩ 0).response =
      ⟨generateOrderResponse c1Env "OD2023110512", some .order_status,
       some ["order_samples.json"]⟩ :=
  C1_amended c1Env (fun _ => "新会话") ⟨[], 86400⟩
    "我的订单号是OD2023110512，帮我查一下物流" (.str "用户甲") 0
    "OD2023110512" "订单数据" (by decide) rfl

/-! ## Invalid-id isolation (C10) -/

theorem addMessage_creates (st : SMState) (sid : PyVal) (role content : String)
    (now : Nat) (f : String)
    (hres : resolveId sid f = f)
    (hf : lookupSess st.sessions f = none) :
    lookupSess (addMessage st sid role content now f).sessions f =
      some ⟨now, now, [⟨role, content⟩], []⟩ := by
  unfold addMessage
  show lookupSess (updateSess (getSession st sid now f).2.sessions
    (getSession st sid now f).1
    (fun d => { d with history := d.history ++ [⟨role, content⟩], last_active := now })) f = _
  have h1 : (getSession st sid now f).1 = f := hres
  rw [h1, lookupSess_update_self, (getSession_creates st sid now f hres hf).2]
  rfl

theorem addMessage_preserves_live (st : SMState) (sid : PyVal)
    (role content : String) (now : Nat) (f k : String) (d : SessionData)
    (hk : lookupSess st.sessions k = some d)
    (hlive : now - d.last_active ≤ st.ttl)
    (hne : resolveId sid f ≠ k) :
    lookupSess (addMessage st sid role content now f).sessions k = some d := by
  unfold addMessage
  show lookupSess (updateSess (getSession st sid now f).2.sessions
    (getSession st sid now f).1
    (fun d => { d with history := d.history ++ [⟨role, content⟩], last_active := now })) k = _
  have h1 : (getSession st sid now f).1 = resolveId sid f := rfl
  rw [h1, lookupSess_update_ne _ _ _ _ (Ne.symm hne)]
  exact getSession_preserves_live st sid now f k d hk hlive hne

theorem setSessionMetadata_preserves_live (st : SMState) (sid : PyVal)
    (key value : String) (now : Nat) (f k : String) (d : SessionData)
    (hk : lookupSess st.sessions k = some d)
    (hlive : now - d.last_active ≤ st.ttl)
    (hne : resolveId sid f ≠ k) :
    lookupSess (setSessionMetadata st sid key value now f).sessions k = some d := by
  unfold setSessionMetadata
  show lookupSess (updateSess (getSession st sid now f).2.sessions
    (getSession st sid now f).1
    (fun d => { d with metadata := setMeta d.metadata key value })) k = _
  have h1 : (getSession st sid now f).1 = resolveId sid f := rfl
  rw [h1, lookupSess_update_ne _ _ _ _ (Ne.symm hne)]
  exact getSession_preserves_live st sid now f k d hk hlive hne

theorem addMessage_keys_subset (st : SMState) (sid : PyVal)
    (role content : String) (now : Nat) (f k : String)
    (h : k ∈ keysOf (addMessage st sid role content now f).sessions) :
    k ∈ keysOf st.sessions ∨ k = resolveId sid f := by
  unfold addMessage at h
  rw [keysOf_updateSess] at h
  exact getSession_keys_subset st sid now f k h

theorem setSessionMetadata_keys_subset (st : SMState) (sid : PyVal)
    (key value : String) (now : Nat) (f k : String)
    (h : k ∈ keysOf (setSessionMetadata st sid key value now f).sessions) :
    k ∈ keysOf st.sessions ∨ k = resolveId sid f := by
  unfold setSessionMetadata at h
  rw [keysOf_updateSess] at h
  exact getSession_keys_subset st sid now f k h

theorem getChatHistory_snd (st : SMState) (sid : PyVal) (now : Nat) (f : String) :
    (getChatHistory st sid now f).2 = (getSession st sid now f).2 := rfl

theorem addMessage_ttl (st : SMState) (sid : PyVal) (role content : String)
    (now : Nat) (f : String) :
    (addMessage st sid role content now f).ttl = st.ttl := rfl

theorem setSessionMetadata_ttl (st : SMState) (sid : PyVal) (key value : String)
    (now : Nat) (f : String) :
    (setSessionMetadata st sid key value now f).ttl = st.ttl := rfl

/-- The core of C10: the two `add_message` calls of one `process_chat`
made with an invalid session id land in two distinct freshly-keyed
sessions, and no key of the resulting store is ever invalid. -/
theorem pcFinal_props (env : Env) (freshIds : Nat → String) (st : SMState)
    (q : String) (sid : PyVal) (now : Nat) (R : String)
    (hinv : invalidSessionId sid = true)
    (hvalid : ∀ n, n ≤ 3 → invalidSessionId (.str (freshIds n)) = false)
    (hfresh : ∀ n, n ≤ 3 → freshIds n ∉ keysOf st.sessions)
    (hd01 : freshIds 0 ≠ freshIds 1) (hd02 : freshIds 0 ≠ freshIds 2)
    (hd03 : freshIds 0 ≠ freshIds 3) (hd12 : freshIds 1 ≠ freshIds 2)
    (hd13 : freshIds 1 ≠ freshIds 3) (hd23 : freshIds 2 ≠ freshIds 3)
    (hkeys : ∀ k ∈ keysOf st.sessions, invalidSessionId (.str k) = false) :
    lookupSess (addMessage (pcState3 env freshIds st q sid now) sid "assistant"
        R now (freshIds 3)).sessions (freshIds 0) =
      some ⟨now, now, [⟨"user", q⟩], []⟩ ∧
    lookupSess (addMessage (pcState3 env freshIds st q sid now) sid "assistant"
        R now (freshIds 3)).sessions (freshIds 3) =
      some ⟨now, now, [⟨"assistant", R⟩], []⟩ ∧
    ∀ k ∈ keysOf (addMessage (pcState3 env freshIds st q sid now) sid "assistant"
        R now (freshIds 3)).sessions,
      invalidSessionId (.str k) = false := by
  have hres : ∀ n, resolveId sid (freshIds n) = freshIds n := by
    intro n
    simp [resolveId, hinv]
  -- step 1: the user message creates session freshIds 0
  have L1 : lookupSess (addMessage st sid "user" q now (freshIds 0)).sessions
      (freshIds 0) = some ⟨now, now, [⟨"user", q⟩], []⟩ :=
    addMessage_creates st sid "user" q now (freshIds 0) (hres 0)
      (lookupSess_eq_none_of_not_mem _ _ (hfresh 0 (by norm_num)))
  have K1 : ∀ k, k ∈ keysOf (addMessage st sid "user" q now (freshIds 0)).sessions →
      k ∈ keysOf st.sessions ∨ k = freshIds 0 := by
    intro k hk
    rcases addMessage_keys_subset st sid "user" q now (freshIds 0) k hk with h | h
    · exact Or.inl h
    · exact Or.inr (h.trans (hres 0))
  -- step 2: get_chat_history touches a second fresh session
  have L2 : lookupSess (getChatHistory (addMessage st sid "user" q now (freshIds 0))
      sid now (freshIds 1)).2.sessions (freshIds 0) =
      some ⟨now, now, [⟨"user", q⟩], []⟩ := by
    rw [getChatHistory_snd]
    exact getSession_preserves_live _ sid now (freshIds 1) (freshIds 0) _ L1
      (by simp) (by rw [hres 1]; exact Ne.symm hd01)
  have K2 : ∀ k, k ∈ keysOf (getChatHistory (addMessage st sid "user" q now (freshIds 0))
      sid now (freshIds 1)).2.sessions →
      (k ∈ keysOf st.sessions ∨ k = freshIds 0) ∨ k = freshIds 1 := by
    intro k hk
    rw [getChatHistory_snd] at hk
    rcases getSession_keys_subset _ sid now (freshIds 1) k hk with h | h
    · exact Or.inl (K1 k h)
    · exact Or.inr (h.trans (hres 1))
  -- step 3: set_session_metadata touches a third fresh session
  have L3 : lookupSess (pcState3 env freshIds st q sid now).sessions (freshIds 0) =
      some ⟨now, now, [⟨"user", q⟩], []⟩ := by
    unfold pcState3
    exact setSessionMetadata_preserves_live _ sid _ _ now (freshIds 2) (freshIds 0) _
      L2 (by simp) (by rw [hres 2]; exact Ne.symm hd02)
  have K3 : ∀ k, k ∈ keysOf (pcState3 env freshIds st q sid now).sessions →
      ((k ∈ keysOf st.sessions ∨ k = freshIds 0) ∨ k = freshIds 1) ∨ k = freshIds 2 := by
    intro k hk
    unfold pcState3 at hk
    rcases setSessionMetadata_keys_subset _ sid _ _ now (freshIds 2) k hk with h | h
    · exact Or.inl (K2 k h)
    · exact Or.inr (h.trans (hres 2))
  -- step 4: the assistant message creates the distinct session freshIds 3
  have F3 : lookupSess (pcState3 env freshIds st q sid now).sessions (freshIds 3) = none := by
    refine lookupSess_eq_none_of_not_mem _ _ ?_
    intro hmem
    rcases K3 _ hmem with ((h | h) | h) | h
    · exact hfresh 3 (by norm_num) h
    · exact hd03 h.symm
    · exact hd13 h.symm
    · exact hd23 h.symm
  refine ⟨?_, ?_, ?_⟩
  · exact addMessage_preserves_live _ sid "assistant" R now (freshIds 3) (freshIds 0) _
      L3 (by simp) (by rw [hres 3]; exact Ne.symm hd03)
  · exact addMessage_creates _ sid "assistant" R now (freshIds 3) (hres 3) F3
  · intro k hk
    rcases addMessage_keys_subset _ sid "assistant" R now (freshIds 3) k hk with h | h
    · rcases K3 k h with ((h' | h') | h') | h'
      · exact hkeys k h'
      · rw [h']
        exact hvalid 0 (by norm_num)
      · rw [h']
        exact hvalid 1 (by norm_num)
      · rw [h']
        exact hvalid 2 (by norm_num)
    · rw [h.trans (hres 3)]
      exact hvalid 3 (by norm_num)

/-- C10: when `process_chat` runs with an invalid session id (empty,
`"undefined"`, or a non-string), every session-store operation draws
its own fresh uuid and stores under it: the user message lands in the
session keyed `freshIds 0`, the assistant reply in the distinct
session keyed `freshIds 3` (two successive operations with the same
invalid id touch two different sessions), and the store never acquires
an invalid key. -/
theorem C10_invalid_id_fresh_sessions (env : Env) (freshIds : Nat → String)
    (st : SMState) (q : String) (sid : PyVal) (now : Nat)
    (hinv : invalidSessionId sid = true)
    (hvalid : ∀ n, n ≤ 3 → invalidSessionId (.str (freshIds n)) = false)
    (hfresh : ∀ n, n ≤ 3 → freshIds n ∉ keysOf st.sessions)
    (hd01 : freshIds 0 ≠ freshIds 1) (hd02 : freshIds 0 ≠ freshIds 2)
    (hd03 : freshIds 0 ≠ freshIds 3) (hd12 : freshIds 1 ≠ freshIds 2)
    (hd13 : freshIds 1 ≠ freshIds 3) (hd23 : freshIds 2 ≠ freshIds 3)
    (hkeys : ∀ k ∈ keysOf st.sessions, invalidSessionId (.str k) = false) :
    lookupSess (processChat env freshIds st ⟨q, sid⟩ now).state.sessions (freshIds 0) =
      some ⟨now, now, [⟨"user", q⟩], []⟩ ∧
    lookupSess (processChat env freshIds st ⟨q, sid⟩ now).state.sessions (freshIds 3) =
      some ⟨now, now,
        [⟨"assistant", (processChat env freshIds st ⟨q, sid⟩ now).response.response⟩], []⟩ ∧
    freshIds 0 ≠ freshIds 3 ∧
    (keysOf (processChat env freshIds st ⟨q, sid⟩ now).state.sessions).all
      (fun k => !invalidSessionId (.str k)) = true := by
  cases hs : pcStructured env q with
  | some oid =>
      have hred : processChat env freshIds st ⟨q, sid⟩ now =
          ⟨⟨generateOrderResponse env oid,
            some (classify env.classifierGen q).1.intent,
            some ["order_samples.json"]⟩,
           addMessage (pcState3 env freshIds st q sid now) sid "assistant"
             (generateOrderResponse env oid) now (freshIds 3),
           (if (classify env.classifierGen q).2 then [.classifyGenCall] else []) ++
             [.orderGenCall]⟩ := by
        unfold processChat
        rw [hs]
      have hp := pcFinal_props env freshIds st q sid now
        (generateOrderResponse env oid) hinv hvalid hfresh
        hd01 hd02 hd03 hd12 hd13 hd23 hkeys
      rw [hred]
      refine ⟨hp.1, hp.2.1, hd03, ?_⟩
      refine List.all_eq_true.mpr (fun k hk => ?_)
      simp [hp.2.2 k hk]
  | none =>
      have hred : processChat env freshIds st ⟨q, sid⟩ now =
          ⟨⟨(generateResponse env).1,
            some (classify env.classifierGen q).1.intent,
            if (retrieve env.search env.rerankGen env.jsonOk q
                (classify env.classifierGen q).1.intent 5).documents.isEmpty then none
            else some (retrieve env.search env.rerankGen env.jsonOk q
                (classify env.classifierGen q).1.intent 5).sources⟩,
           addMessage (pcState3 env freshIds st q sid now) sid "assistant"
             (generateResponse env).1 now (freshIds 3),
           (if (classify env.classifierGen q).2 then [.classifyGenCall] else []) ++
             [.retrieveCall] ++ (generateResponse env).2⟩ := by
        unfold processChat
        rw [hs]
      have hp := pcFinal_props env freshIds st q sid now
        ((generateResponse env).1) hinv hvalid hfresh
        hd01 hd02 hd03 hd12 hd13 hd23 hkeys
      rw [hred]
      refine ⟨hp.1, hp.2.1, hd03, ?_⟩
      refine List.all_eq_true.mpr (fun k hk => ?_)
      simp [hp.2.2 k hk]

/-- The fresh uuid supply for the C10 witness. -/
def c10Fresh : Nat → String
  | 0 => "会话0"
  | 1 => "会话1"
  | 2 => "会话2"
  | _ => "会话3"

/-- Witness for `C10_invalid_id_fresh_sessions`: empty incoming id
against an empty store. -/
theorem C10_invalid_id_fresh_sessions_witness :
    lookupSess (processChat c1Env c10Fresh ⟨[], 86400⟩ ⟨"你好", .str ""⟩ 7).state.sessions
      (c10Fresh 0) = some ⟨7, 7, [⟨"user", "你好"⟩], []⟩ ∧
    lookupSess (processChat c1Env c10Fresh ⟨[], 86400⟩ ⟨"你好", .str ""⟩ 7).state.sessions
      (c10Fresh 3) = some ⟨7, 7,
        [⟨"assistant",
          (processChat c1Env c10Fresh ⟨[], 86400⟩ ⟨"你好", .str ""⟩ 7).response.response⟩], []⟩ ∧
    c10Fresh 0 ≠ c10Fresh 3 ∧
    (keysOf (processChat c1Env c10Fresh ⟨[], 86400⟩ ⟨"你好", .str ""⟩ 7).state.sessions).all
      (fun k => !invalidSessionId (.str k)) = true :=
  C10_invalid_id_fresh_sessions c1Env c10Fresh ⟨[], 86400⟩ "你好" (.str "") 7
    (by decide)
    (by intro n hn; interval_cases n <;> decide)
    (by intro n hn; interval_cases n <;> decide)
    (by decide) (by decide) (by decide) (by decide) (by decide) (by decide)
    (by intro k hk; simp [keysOf] at hk)

end CSAgent
